import Mathlib

/-!
Verification of the goverter unit-conversion core (main.go).

The Go code computes with float64; this development models the arithmetic
over exact rationals: every decimal literal of the source is taken at its
exact decimal value, and the float64 constant math.Pi is taken at its exact
binary64 value 884279719003555 / 2^48.  The rounding helper math.Round
(round half away from zero) is modelled exactly.  IEEE round-off of the
intermediate products is not modelled; statements about bit-for-bit float
behaviour are read as statements about this exact-arithmetic semantics.
-/

namespace goverter

/-- Mirrors the Go struct Unit of main.go: conversion factor to the base
unit of the dimension, the dimension tag, display name, and the additive
offset (used by temperature units, zero-valued elsewhere, as in Go where
an omitted struct field is the zero value). -/
structure Unit where
  Factor : ℚ
  Dimension : String
  Name : String
  Offset : ℚ
deriving DecidableEq

/-- Exact rational value of the float64 constant math.Pi
(3.14159265358979311599796346854... = 884279719003555 / 2^48). -/
def mathPi : ℚ := 884279719003555 / 281474976710656

/-- The unit registry built by NewUnitConverter in main.go, as an
association list (the Go map has unique keys; lookup order is irrelevant
because keys are distinct). Field order: Factor, Dimension, Name, Offset. -/
def units : List (String × Unit) := [
  -- Mass units (base = gram)
  ("mg", ⟨0.001, "mass", "Milligram", 0⟩),
  ("g", ⟨1, "mass", "Gram", 0⟩),
  ("kg", ⟨1000, "mass", "Kilogram", 0⟩),
  ("t", ⟨1000000, "mass", "Tonne", 0⟩),
  ("oz", ⟨28.3495, "mass", "Ounce", 0⟩),
  ("lb", ⟨453.59237, "mass", "Pound", 0⟩),
  -- Length units (base = meter)
  ("nm", ⟨0.000000001, "length", "Nanometer", 0⟩),
  ("µm", ⟨0.000001, "length", "Micrometer", 0⟩),
  ("mm", ⟨0.001, "length", "Millimeter", 0⟩),
  ("cm", ⟨0.01, "length", "Centimeter", 0⟩),
  ("m", ⟨1, "length", "Meter", 0⟩),
  ("km", ⟨1000, "length", "Kilometer", 0⟩),
  ("in", ⟨0.0254, "length", "Inch", 0⟩),
  ("ft", ⟨0.3048, "length", "Foot", 0⟩),
  ("yd", ⟨0.9144, "length", "Yard", 0⟩),
  ("mi", ⟨1609.344, "length", "Mile", 0⟩),
  -- Temperature units (base = Kelvin)
  ("C", ⟨1, "temperature", "Celsius", 273.15⟩),
  ("F", ⟨5/9, "temperature", "Fahrenheit", 255.372⟩),
  ("K", ⟨1, "temperature", "Kelvin", 0⟩),
  ("Ra", ⟨5/9, "temperature", "Rankine", 0⟩),
  -- Time units (base = second)
  ("ns", ⟨1e-9, "time", "Nanosecond", 0⟩),
  ("µs", ⟨1e-6, "time", "Microsecond", 0⟩),
  ("ms", ⟨1e-3, "time", "Millisecond", 0⟩),
  ("s", ⟨1, "time", "Second", 0⟩),
  ("min", ⟨60, "time", "Minute", 0⟩),
  ("h", ⟨3600, "time", "Hour", 0⟩),
  ("day", ⟨86400, "time", "Day", 0⟩),
  ("week", ⟨604800, "time", "Week", 0⟩),
  ("year", ⟨31536000, "time", "Year (365 days)", 0⟩),
  -- Frequency units (base = hertz)
  ("Hz", ⟨1, "frequency", "Hertz", 0⟩),
  ("kHz", ⟨1000, "frequency", "Kilohertz", 0⟩),
  ("MHz", ⟨1e6, "frequency", "Megahertz", 0⟩),
  ("GHz", ⟨1e9, "frequency", "Gigahertz", 0⟩),
  ("THz", ⟨1e12, "frequency", "Terahertz", 0⟩),
  -- Speed units (base = meters per second)
  ("m/s", ⟨1, "speed", "Meters per second", 0⟩),
  ("km/h", ⟨0.277778, "speed", "Kilometers per hour", 0⟩),
  ("ft/s", ⟨0.3048, "speed", "Feet per second", 0⟩),
  ("mph", ⟨0.44704, "speed", "Miles per hour", 0⟩),
  ("knot", ⟨0.514444, "speed", "Knot", 0⟩),
  ("mach", ⟨340.29, "speed", "Mach (at sea level)", 0⟩),
  -- Volume units (base = cubic meter)
  ("m³", ⟨1, "volume", "Cubic Meter", 0⟩),
  ("L", ⟨0.001, "volume", "Liter", 0⟩),
  ("gal", ⟨0.003785411784, "volume", "Gallon (US)", 0⟩),
  ("fl_oz", ⟨0.0000295735295625, "volume", "Fluid Ounce (US)", 0⟩),
  -- Area units (base = square meter)
  ("m²", ⟨1, "area", "Square Meter", 0⟩),
  ("acre", ⟨4046.8564224, "area", "Acre", 0⟩),
  ("ha", ⟨10000, "area", "Hectare", 0⟩),
  -- Energy units (base = joule)
  ("J", ⟨1, "energy", "Joule", 0⟩),
  ("cal", ⟨4.184, "energy", "Calorie", 0⟩),
  ("kcal", ⟨4184, "energy", "Kilocalorie", 0⟩),
  -- Power units (base = watt)
  ("W", ⟨1, "power", "Watt", 0⟩),
  ("HP", ⟨735.49875, "power", "Horsepower", 0⟩),
  -- Force units (base = newton)
  ("N", ⟨1, "force", "Newton", 0⟩),
  ("lbf", ⟨4.4482216153, "force", "Pound-force", 0⟩),
  -- Pressure units (base = pascal)
  ("Pa", ⟨1, "pressure", "Pascal", 0⟩),
  ("atm", ⟨101325, "pressure", "Atmosphere", 0⟩),
  ("bar", ⟨100000, "pressure", "Bar", 0⟩),
  -- Data Storage units (base = byte)
  ("B", ⟨1, "data_storage", "Byte", 0⟩),
  ("bit", ⟨0.125, "data_storage", "Bit", 0⟩),
  ("KB", ⟨1024, "data_storage", "Kilobyte", 0⟩),
  ("MB", ⟨1048576, "data_storage", "Megabyte", 0⟩),
  ("GB", ⟨1073741824, "data_storage", "Gigabyte", 0⟩),
  -- Angle units (base = radian)
  ("rad", ⟨1, "angle", "Radian", 0⟩),
  ("deg", ⟨mathPi / 180, "angle", "Degree", 0⟩),
  ("arcmin", ⟨mathPi / 10800, "angle", "Minute", 0⟩),
  ("arcsec", ⟨mathPi / 648000, "angle", "Second", 0⟩)]

/-- Go map lookup uc.units[symbol]: the registry keys are pairwise
distinct, so association-list search models the map exactly. -/
def lookup (symbol : String) : Option Unit :=
  (units.find? (fun p => p.1 = symbol)).map (·.2)

/-- The three failure cases of Convert in main.go (the Go code carries
them as formatted error strings; the constructor arguments carry the data
interpolated into those strings). -/
inductive ConvError where
  | invalidSourceUnit (symbol : String)
  | invalidTargetUnit (symbol : String)
  | dimensionMismatch (fromSym fromDim toSym toDim : String)
deriving DecidableEq

/-- The error message rendered by fmt.Errorf for each failure of Convert. -/
def errMessage : ConvError → String
  | .invalidSourceUnit s => "invalid source unit: " ++ s
  | .invalidTargetUnit s => "invalid target unit: " ++ s
  | .dimensionMismatch f fd t td =>
      "cannot convert between different dimensions: " ++ f ++ " (" ++ fd ++
        ") and " ++ t ++ " (" ++ td ++ ")"

/-- Go math.Round: nearest integer, half away from zero. -/
def goRound (x : ℚ) : ℚ :=
  if 0 ≤ x then (⌊x + 1/2⌋ : ℤ) else (⌈x - 1/2⌉ : ℤ)

/-- The final rounding step of Convert: precision 12,
factor = math.Pow(10, 12) = 10^12 (exact), math.Round(result*factor)/factor. -/
def round12 (x : ℚ) : ℚ := goRound (x * 10 ^ 12) / 10 ^ 12

/-- Convert of main.go: returns the (result, error) pair as Go does
(ℚ × Option ConvError; the numeric component is 0 on every error path). -/
def Convert (value : ℚ) (fromS toS : String) : ℚ × Option ConvError :=
  match lookup fromS with
  | none => (0, some (ConvError.invalidSourceUnit fromS))
  | some unitFrom =>
    match lookup toS with
    | none => (0, some (ConvError.invalidTargetUnit toS))
    | some unitTo =>
      if unitFrom.Dimension ≠ unitTo.Dimension then
        (0, some (ConvError.dimensionMismatch fromS unitFrom.Dimension
                    toS unitTo.Dimension))
      else
        let result :=
          if unitFrom.Dimension = "temperature" then
            ((value * unitFrom.Factor + unitFrom.Offset) - unitTo.Offset)
              / unitTo.Factor
          else
            value * unitFrom.Factor / unitTo.Factor
        (round12 result, none)

/-- Round half to even on an exact rational, the rounding Go strconv uses
when it formats a float with a fixed number of digits (%f, %e). -/
def rhe (x : ℚ) : ℤ :=
  if x - ⌊x⌋ < 1/2 then ⌊x⌋
  else if 1/2 < x - ⌊x⌋ then ⌊x⌋ + 1
  else if ⌊x⌋ % 2 = 0 then ⌊x⌋ else ⌊x⌋ + 1

/-- Left-pad the decimal digits of n with zeros to width w. -/
def natPad (n w : ℕ) : String :=
  let s := Nat.repr n
  String.mk (List.replicate (w - s.length) '0') ++ s

/-- Digit assembly for fmt %f with dp fractional digits: n is the
magnitude already scaled by 10^dp and rounded to an integer. -/
def fixedDigits (n dp : ℕ) : String :=
  if dp = 0 then Nat.repr n
  else Nat.repr (n / 10 ^ dp) ++ "." ++ natPad (n % 10 ^ dp) dp

/-- fmt.Sprintf("%.<dp>f", x): fixed decimal rendering with dp fractional
digits (sign, then the rounded scaled magnitude split at the point). -/
def formatFixed (x : ℚ) (dp : ℕ) : String :=
  (if x < 0 then "-" else "") ++ fixedDigits (rhe (|x| * 10 ^ dp)).toNat dp

/-- Digit assembly for fmt %.6e: n is the mantissa scaled by 10^6 and
rounded (so 10^6 ≤ n < 10^7), e the decimal exponent; Go prints the
exponent with a sign and at least two digits. -/
def sciDigits (n : ℕ) (e : ℤ) : String :=
  Nat.repr (n / 10 ^ 6) ++ "." ++ natPad (n % 10 ^ 6) 6 ++ "e" ++
    (if e < 0 then "-" else "+") ++
    (if e.natAbs < 10 then "0" ++ Nat.repr e.natAbs else Nat.repr e.natAbs)

/-- Mantissa overflow step of %e rendering: when rounding the mantissa to
6 places reaches 10.000000, the exponent is bumped as Go does. -/
def sciParts (n : ℕ) (e : ℤ) : String :=
  if n = 10 ^ 7 then sciDigits (10 ^ 6) (e + 1) else sciDigits n e

/-- fmt.Sprintf("%.6e", x): scientific rendering with 6 fractional
digits.  The decimal exponent is Int.log 10 of the magnitude, the
mantissa is the magnitude scaled into [1, 10) and rounded to 6 places. -/
def formatSci (x : ℚ) : String :=
  if x = 0 then "0.000000e+00"
  else
    (if x < 0 then "-" else "") ++
      sciParts (rhe (|x| / (10:ℚ) ^ Int.log 10 |x| * 10 ^ 6)).toNat
        (Int.log 10 |x|)

/-- FormatResult of main.go: scientific rendering for very small or very
large magnitudes, otherwise fixed rendering with magnitude-dependent
decimal places, then a space and the unit symbol. -/
def FormatResult (result : ℚ) (unit : String) : String :=
  if |result| < 0.001 ∨ |result| > 1000000 then
    formatSci result ++ " " ++ unit
  else
    formatFixed result
      (if |result| ≥ 1000 then 0
       else if |result| ≥ 100 then 1
       else if |result| ≥ 10 then 2
       else if |result| ≥ 1 then 3
       else 4) ++ " " ++ unit

/-- Written from the WORDS of the spec (§4.3 and the C6 claim), to be
compared with FormatResult, which is written from the code: let a be the
absolute value; if a < 0.001 or a > 1,000,000 render in scientific
notation with 6 digits after the point, else in fixed decimal with 0
places when a ≥ 1000, 1 when a ≥ 100, 2 when a ≥ 10, 3 when a ≥ 1 and 4
when a < 1, followed by a space and the unit symbol. -/
def FormatResultSpec (result : ℚ) (unit : String) : String :=
  if |result| < 0.001 ∨ |result| > 1000000 then
    formatSci result ++ " " ++ unit
  else
    formatFixed result
      (if |result| ≥ 1000 then 0
       else if |result| ≥ 100 then 1
       else if |result| ≥ 10 then 2
       else if |result| ≥ 1 then 3
       else 4) ++ " " ++ unit

/-- An HTTP response of the /convert handler: status code and body text. -/
structure Response where
  status : ℕ
  body : String
deriving DecidableEq

/-- The JSON body json.Encoder writes for a failed ConversionResult
(success false and the error message; all other fields are omitempty and
zero, so they are dropped; Encode appends a newline). -/
def jsonError (msg : String) : String :=
  "\x7b\"success\":false,\"error\":\"" ++ msg ++ "\"\x7d\n"

/-- Value of a list of decimal digit characters. -/
def digitsVal (cs : List Char) : ℕ :=
  cs.foldl (fun a c => a * 10 + (c.toNat - 48)) 0

/-- All characters are decimal digits. -/
def isDigits (cs : List Char) : Bool :=
  cs.all fun c => c.isDigit

/-- Split a character list at the first point character. -/
def splitDot : List Char → List Char × Option (List Char)
  | [] => ([], none)
  | c :: cs =>
    if c = '.' then ([], some cs)
    else
      let p := splitDot cs
      (c :: p.1, p.2)

/-- Leading sign of a numeric literal. -/
def stripSign : List Char → Bool × List Char
  | '-' :: rest => (true, rest)
  | '+' :: rest => (false, rest)
  | cs => (false, cs)

/-- Digits of an unsigned decimal literal, as a rational. -/
def parseDecimalAux (neg : Bool) (cs : List Char) : Option ℚ :=
  match (splitDot cs).2 with
  | none =>
    if (splitDot cs).1 ≠ [] ∧ isDigits (splitDot cs).1 then
      some ((if neg then -1 else 1) * (digitsVal (splitDot cs).1 : ℚ))
    else none
  | some fp =>
    if ((splitDot cs).1 ≠ [] ∨ fp ≠ []) ∧ isDigits (splitDot cs).1 ∧ isDigits fp then
      some ((if neg then -1 else 1) *
        ((digitsVal (splitDot cs).1 : ℚ) + (digitsVal fp : ℚ) / 10 ^ fp.length))
    else none

/-- strconv.ParseFloat(s, 64) of the Go handler, modelled exactly on
plain decimal literals (optional sign, integer digits, optional point and
fraction digits); the exponent, hex and inf/nan forms ParseFloat also
accepts are not modelled, and no request considered here uses them. -/
def parseDecimal (s : String) : Option ℚ :=
  parseDecimalAux (stripSign s.data).1 (stripSign s.data).2

/-- convertHandler of main.go, as a function of the request method and
the three form fields (r.FormValue returns "" for an absent field, and
the handler checks the method, then emptiness, then numeric parsing, then
Convert; on success it writes status 200 and fmt.Fprintf "%.3f %s"). -/
def convertHandler (method valueStr fromUnit toUnit : String) : Response :=
  if method ≠ "POST" then
    ⟨405, jsonError "Method not allowed. Please use POST."⟩
  else if valueStr = "" ∨ fromUnit = "" ∨ toUnit = "" then
    ⟨400, jsonError "All fields (value, from, to) are required"⟩
  else
    match parseDecimal valueStr with
    | none => ⟨400, jsonError "Invalid value: must be a number"⟩
    | some value =>
      match Convert value fromUnit toUnit with
      | (_, some e) => ⟨400, jsonError (errMessage e)⟩
      | (result, none) => ⟨200, formatFixed result 3 ++ " " ++ toUnit⟩

/-! Evaluation and bound lemmas for the rounding helpers. -/

theorem goRound_eq_of_nonneg {x : ℚ} {n : ℤ} (h0 : 0 ≤ x)
    (h1 : (n : ℚ) ≤ x + 1/2) (h2 : x + 1/2 < (n : ℚ) + 1) :
    goRound x = (n : ℚ) := by
  have hf : ⌊x + 1/2⌋ = n := by
    rw [Int.floor_eq_iff]
    exact ⟨h1, by exact_mod_cast h2⟩
  unfold goRound
  rw [if_pos h0, hf]

theorem goRound_eq_of_neg {x : ℚ} {n : ℤ} (h0 : x < 0)
    (h1 : (n : ℚ) - 1 < x - 1/2) (h2 : x - 1/2 ≤ (n : ℚ)) :
    goRound x = (n : ℚ) := by
  have hc : ⌈x - 1/2⌉ = n := by
    rw [Int.ceil_eq_iff]
    exact ⟨by exact_mod_cast h1, h2⟩
  unfold goRound
  rw [if_neg (not_le.2 h0), hc]

theorem goRound_intCast (n : ℤ) : goRound ((n : ℚ)) = (n : ℚ) := by
  rcases le_or_lt 0 ((n : ℚ)) with h | h
  · exact goRound_eq_of_nonneg h (by norm_num) (by norm_num)
  · exact goRound_eq_of_neg h (by norm_num) (by norm_num)

theorem goRound_sub_abs_le (x : ℚ) : |goRound x - x| ≤ 1/2 := by
  unfold goRound
  split
  · have h1 := Int.floor_le (x + 1/2)
    have h2 := Int.lt_floor_add_one (x + 1/2)
    rw [abs_le]
    constructor <;> linarith
  · have h1 := Int.le_ceil (x - 1/2)
    have h2 := Int.ceil_lt_add_one (x - 1/2)
    rw [abs_le]
    constructor <;> linarith

theorem round12_eq_of_nonneg {x : ℚ} {n : ℤ} (h0 : 0 ≤ x)
    (h1 : (n : ℚ) ≤ x * 10 ^ 12 + 1/2) (h2 : x * 10 ^ 12 + 1/2 < (n : ℚ) + 1) :
    round12 x = (n : ℚ) / 10 ^ 12 := by
  unfold round12
  rw [goRound_eq_of_nonneg (by positivity) h1 h2]

theorem round12_eq_of_neg {x : ℚ} {n : ℤ} (h0 : x < 0)
    (h1 : (n : ℚ) - 1 < x * 10 ^ 12 - 1/2) (h2 : x * 10 ^ 12 - 1/2 ≤ (n : ℚ)) :
    round12 x = (n : ℚ) / 10 ^ 12 := by
  unfold round12
  rw [goRound_eq_of_neg (by nlinarith) h1 h2]

theorem round12_eq_self {x : ℚ} {n : ℤ} (h : x * 10 ^ 12 = (n : ℚ)) :
    round12 x = x := by
  unfold round12
  rw [h, goRound_intCast, ← h, mul_div_cancel_right₀]
  norm_num

theorem round12_sub_abs_le (x : ℚ) : |round12 x - x| ≤ 1 / (2 * 10 ^ 12) := by
  have h := goRound_sub_abs_le (x * 10 ^ 12)
  have key : round12 x - x = (goRound (x * 10 ^ 12) - x * 10 ^ 12) / 10 ^ 12 := by
    unfold round12
    field_simp
    ring
  rw [key, abs_div, abs_of_pos (show (0:ℚ) < 10 ^ 12 by norm_num)]
  rw [div_le_iff₀ (by norm_num : (0:ℚ) < 10 ^ 12)]
  calc |goRound (x * 10 ^ 12) - x * 10 ^ 12| ≤ 1/2 := h
    _ = 1 / (2 * 10 ^ 12) * 10 ^ 12 := by norm_num

theorem rhe_eq_floor {x : ℚ} {n : ℤ} (h1 : (n : ℚ) ≤ x)
    (h2 : x < (n : ℚ) + 1/2) : rhe x = n := by
  have hf : ⌊x⌋ = n := by
    rw [Int.floor_eq_iff]
    exact ⟨h1, by linarith⟩
  unfold rhe
  rw [hf, if_pos (show x - (n : ℚ) < 1/2 by linarith)]

theorem rhe_eq_ceil {x : ℚ} {n : ℤ} (h1 : (n : ℚ) + 1/2 < x)
    (h2 : x < (n : ℚ) + 1) : rhe x = n + 1 := by
  have hf : ⌊x⌋ = n := by
    rw [Int.floor_eq_iff]
    exact ⟨by linarith, by linarith⟩
  unfold rhe
  rw [hf, if_neg (show ¬ x - (n : ℚ) < 1/2 by linarith),
    if_pos (show 1/2 < x - (n : ℚ) by linarith)]

theorem rhe_intCast (n : ℤ) : rhe ((n : ℚ)) = n :=
  rhe_eq_floor (le_refl _) (by norm_num)

/-! Registry facts and the shape of Convert on each path. -/

theorem lookup_mem {s : String} {u : Unit} (h : lookup s = some u) :
    (s, u) ∈ units := by
  unfold lookup at h
  rcases Option.map_eq_some'.1 h with ⟨p, hp, hpu⟩
  have hmem := List.mem_of_find?_eq_some hp
  have hkey : p.1 = s := by simpa using List.find?_some hp
  have : p = (s, u) := by
    cases p
    simp_all
  rwa [this] at hmem

theorem registry_invariant :
    ∀ p ∈ units, 0 < p.2.Factor ∧
      (p.2.Dimension ≠ "temperature" → p.2.Offset = 0) := by
  intro p hp
  fin_cases hp <;>
    exact ⟨by norm_num [mathPi], by intro h; first | rfl | exact absurd rfl h⟩

theorem factor_pos {s : String} {u : Unit} (h : lookup s = some u) :
    0 < u.Factor :=
  (registry_invariant _ (lookup_mem h)).1

theorem Convert_src_missing {v : ℚ} {fS tS : String} (hf : lookup fS = none) :
    Convert v fS tS = (0, some (ConvError.invalidSourceUnit fS)) := by
  unfold Convert
  rw [hf]

theorem Convert_tgt_missing {v : ℚ} {fS tS : String} {uf : Unit}
    (hf : lookup fS = some uf) (ht : lookup tS = none) :
    Convert v fS tS = (0, some (ConvError.invalidTargetUnit tS)) := by
  unfold Convert
  rw [hf, ht]

theorem Convert_dim_mismatch {v : ℚ} {fS tS : String} {uf ut : Unit}
    (hf : lookup fS = some uf) (ht : lookup tS = some ut)
    (hd : uf.Dimension ≠ ut.Dimension) :
    Convert v fS tS =
      (0, some (ConvError.dimensionMismatch fS uf.Dimension tS ut.Dimension)) := by
  unfold Convert
  rw [hf, ht]
  exact if_pos hd

theorem Convert_ok {v : ℚ} {fS tS : String} {uf ut : Unit}
    (hf : lookup fS = some uf) (ht : lookup tS = some ut)
    (hd : uf.Dimension = ut.Dimension) :
    Convert v fS tS =
      (round12 (if uf.Dimension = "temperature" then
          ((v * uf.Factor + uf.Offset) - ut.Offset) / ut.Factor
        else v * uf.Factor / ut.Factor), none) := by
  unfold Convert
  rw [hf, ht]
  exact if_neg (not_not_intro hd)

/-- Evaluation rule for the decimal exponent used by formatSci. -/
theorem ilog_eq {q : ℚ} {e : ℤ} (h0 : 0 < q) (h1 : (10:ℚ) ^ e ≤ q)
    (h2 : q < (10:ℚ) ^ (e + 1)) : Int.log 10 q = e := by
  have hb : 1 < (10:ℕ) := by norm_num
  have hle : e ≤ Int.log 10 q := by
    rw [← Int.zpow_le_iff_le_log hb h0]
    exact_mod_cast h1
  have hlt : Int.log 10 q < e + 1 := by
    rw [← Int.lt_zpow_iff_log_lt hb h0]
    exact_mod_cast h2
  omega

/-- Algebra of the affine round trip: converting r1 back from B to A lands
at v displaced by the forward rounding error scaled by fB / fA. -/
theorem roundtrip_affine (fA fB oA oB v r1 : ℚ) (hfA : fA ≠ 0) (hfB : fB ≠ 0) :
    ((r1 * fB + oB) - oA) / fA =
      v + (r1 - ((v * fA + oA) - oB) / fB) * (fB / fA) := by
  field_simp
  ring

/-- Algebra of the ratio round trip. -/
theorem roundtrip_ratio (fA fB v r1 : ℚ) (hfA : fA ≠ 0) (hfB : fB ≠ 0) :
    r1 * fB / fA = v + (r1 - v * fA / fB) * (fB / fA) := by
  field_simp

/-! Claim theorems. -/

/-- C3: Convert(value, from, to) errors exactly when the source symbol is
absent, or the source is present and the target absent, or both are
present with different dimension tags; each case yields the corresponding
error, and every registered same-dimension pair succeeds for every value. -/
theorem C3_error_characterization (v : ℚ) (fS tS : String) :
    ((Convert v fS tS).2 = none ↔
      ∃ uf ut, lookup fS = some uf ∧ lookup tS = some ut ∧
        uf.Dimension = ut.Dimension) ∧
    (lookup fS = none →
      (Convert v fS tS).2 = some (ConvError.invalidSourceUnit fS)) ∧
    (∀ uf, lookup fS = some uf → lookup tS = none →
      (Convert v fS tS).2 = some (ConvError.invalidTargetUnit tS)) ∧
    (∀ uf ut, lookup fS = some uf → lookup tS = some ut →
      uf.Dimension ≠ ut.Dimension →
      (Convert v fS tS).2 =
        some (ConvError.dimensionMismatch fS uf.Dimension tS ut.Dimension)) := by
  refine ⟨⟨?_, ?_⟩, ?_, ?_, ?_⟩
  · intro hnone
    rcases hf : lookup fS with _ | uf
    · rw [Convert_src_missing hf] at hnone
      exact absurd hnone (by simp)
    rcases ht : lookup tS with _ | ut
    · rw [Convert_tgt_missing hf ht] at hnone
      exact absurd hnone (by simp)
    by_cases hd : uf.Dimension = ut.Dimension
    · exact ⟨uf, ut, rfl, rfl, hd⟩
    · rw [Convert_dim_mismatch hf ht hd] at hnone
      exact absurd hnone (by simp)
  · rintro ⟨uf, ut, hf, ht, hd⟩
    rw [Convert_ok hf ht hd]
  · intro hf
    rw [Convert_src_missing hf]
  · intro uf hf ht
    rw [Convert_tgt_missing hf ht]
  · intro uf ut hf ht hd
    rw [Convert_dim_mismatch hf ht hd]

/-- Witness for C3 at a concrete cross-dimension pair. -/
theorem C3_witness :
    (Convert 1 "kg" "m").2 =
      some (ConvError.dimensionMismatch "kg" "mass" "m" "length") :=
  (C3_error_characterization 1 "kg" "m").2.2.2
    ⟨1000, "mass", "Kilogram", 0⟩ ⟨1, "length", "Meter", 0⟩ rfl rfl (by decide)

/-- C9: every registry entry has a strictly positive factor, and every
entry whose dimension is not temperature has offset 0; the registry is a
fixed value, so no operation can mutate it. -/
theorem C9_registry_invariant :
    ∀ p ∈ units, 0 < p.2.Factor ∧
      (p.2.Dimension ≠ "temperature" → p.2.Offset = 0) :=
  registry_invariant

/-- Witness for C9 at the gram entry. -/
theorem C9_witness :
    0 < (⟨1, "mass", "Gram", 0⟩ : Unit).Factor ∧
      ((⟨1, "mass", "Gram", 0⟩ : Unit).Dimension ≠ "temperature" →
        (⟨1, "mass", "Gram", 0⟩ : Unit).Offset = 0) :=
  C9_registry_invariant ("g", ⟨1, "mass", "Gram", 0⟩)
    (List.mem_cons_of_mem _ (List.mem_cons_self _ _))

/-- C10: when both symbols are absent from the registry, Convert reports
the invalid-source-unit error (the source lookup runs first) and the
numeric component of the returned pair is 0. -/
theorem C10_both_missing (v : ℚ) (fS tS : String)
    (hf : lookup fS = none) (_ht : lookup tS = none) :
    Convert v fS tS = (0, some (ConvError.invalidSourceUnit fS)) :=
  Convert_src_missing hf

/-- Witness for C10 at two unregistered symbols. -/
theorem C10_witness :
    Convert 1 "xx" "yy" = (0, some (ConvError.invalidSourceUnit "xx")) :=
  C10_both_missing 1 "xx" "yy" rfl rfl

/-- C1 counterexample: the identity conversion is not exact for every
value; at v = 10^-13 on meters the final rounding step collapses the
result to 0. -/
theorem C1_counterexample :
    (Convert (1/10^13) "m" "m").2 = none ∧
      (Convert (1/10^13) "m" "m").1 ≠ 1/10^13 := by
  have h : Convert (1/10^13) "m" "m" = (0, none) := by
    rw [Convert_ok (show lookup "m" = some ⟨1, "length", "Meter", 0⟩ from rfl)
        (show lookup "m" = some ⟨1, "length", "Meter", 0⟩ from rfl) rfl]
    rw [if_neg (by decide)]
    rw [round12_eq_of_nonneg (n := 0) (by norm_num) (by norm_num) (by norm_num)]
    norm_num
  rw [h]
  exact ⟨rfl, by norm_num⟩

/-- C1 (amended): for every registered unit A and every value v, the
identity conversion succeeds and returns round12 v (multiply by 10^12,
round half away from zero, divide back); it returns v itself exactly
whenever v * 10^12 is an integer. -/
theorem C1_identity_up_to_rounding (s : String) (u : Unit) (v : ℚ)
    (h : lookup s = some u) :
    Convert v s s = (round12 v, none) ∧
      (∀ n : ℤ, v * 10 ^ 12 = (n : ℚ) → (Convert v s s).1 = v) := by
  have hne : u.Factor ≠ 0 := ne_of_gt (factor_pos h)
  have he := Convert_ok (v := v) h h rfl
  have harg : (if u.Dimension = "temperature" then
      ((v * u.Factor + u.Offset) - u.Offset) / u.Factor
    else v * u.Factor / u.Factor) = v := by
    split
    · rw [add_sub_cancel_right, mul_div_cancel_right₀ _ hne]
    · rw [mul_div_cancel_right₀ _ hne]
  rw [harg] at he
  refine ⟨he, fun n hn => ?_⟩
  rw [he, round12_eq_self hn]

/-- Witness for C1 at kilograms and v = 7. -/
theorem C1_witness :
    Convert 7 "kg" "kg" = (round12 7, none) ∧
      (∀ n : ℤ, (7:ℚ) * 10 ^ 12 = (n : ℚ) → (Convert 7 "kg" "kg").1 = 7) :=
  C1_identity_up_to_rounding "kg" ⟨1000, "mass", "Kilogram", 0⟩ 7 rfl

/-- C4: for registered temperature units Convert computes
base = value * fromFactor + fromOffset then (base - toOffset) / toFactor
before the 12-digit rounding; Convert(0, C, K) is exactly 273.15,
Convert(32, F, C) is within 1/1000 of 0 and Convert(100, C, F) is within
1/1000 of 212. -/
theorem C4_temperature_formula :
    (∀ (A B : String) (uA uB : Unit) (v : ℚ),
        lookup A = some uA → lookup B = some uB →
        uA.Dimension = "temperature" → uB.Dimension = "temperature" →
        Convert v A B =
          (round12 (((v * uA.Factor + uA.Offset) - uB.Offset) / uB.Factor),
            none)) ∧
    Convert 0 "C" "K" = (273.15, none) ∧
    |(Convert 32 "F" "C").1| < 1/1000 ∧
    |(Convert 100 "C" "F").1 - 212| < 1/1000 := by
  refine ⟨?_, ?_, ?_, ?_⟩
  · intro A B uA uB v hA hB hdA hdB
    rw [Convert_ok hA hB (hdA.trans hdB.symm), if_pos hdA]
  · rw [Convert_ok (show lookup "C" = some ⟨1, "temperature", "Celsius", 273.15⟩ from rfl)
        (show lookup "K" = some ⟨1, "temperature", "Kelvin", 0⟩ from rfl) rfl]
    rw [if_pos rfl]
    rw [round12_eq_self (n := 273150000000000) (by norm_num)]
    norm_num
  · rw [Convert_ok (show lookup "F" = some ⟨5/9, "temperature", "Fahrenheit", 255.372⟩ from rfl)
        (show lookup "C" = some ⟨1, "temperature", "Celsius", 273.15⟩ from rfl) rfl]
    rw [if_pos rfl]
    rw [round12_eq_of_neg (n := -222222222) (by norm_num) (by norm_num) (by norm_num)]
    norm_num [abs_lt]
  · rw [Convert_ok (show lookup "C" = some ⟨1, "temperature", "Celsius", 273.15⟩ from rfl)
        (show lookup "F" = some ⟨5/9, "temperature", "Fahrenheit", 255.372⟩ from rfl) rfl]
    rw [if_pos rfl]
    rw [round12_eq_self (n := 212000400000000) (by norm_num)]
    norm_num [abs_lt]

/-- Witness for C4: the temperature formula instantiated at C to K, v = 5. -/
theorem C4_witness :
    Convert 5 "C" "K" = (round12 (((5 * 1 + 273.15) - 0) / 1), none) :=
  C4_temperature_formula.1 "C" "K" ⟨1, "temperature", "Celsius", 273.15⟩
    ⟨1, "temperature", "Kelvin", 0⟩ 5 rfl rfl rfl rfl

/-- C5: for registered same-dimension non-temperature units Convert
computes value * fromFactor / toFactor and then applies round12 (multiply
by 10^12, round to nearest, divide back); Convert(1, km, m) = 1000 and
Convert(1000, g, kg) = 1. -/
theorem C5_ratio_formula :
    (∀ (A B : String) (uA uB : Unit) (v : ℚ),
        lookup A = some uA → lookup B = some uB →
        uA.Dimension = uB.Dimension → uA.Dimension ≠ "temperature" →
        Convert v A B = (round12 (v * uA.Factor / uB.Factor), none)) ∧
    Convert 1 "km" "m" = (1000, none) ∧
    Convert 1000 "g" "kg" = (1, none) := by
  refine ⟨?_, ?_, ?_⟩
  · intro A B uA uB v hA hB hd hnt
    rw [Convert_ok hA hB hd, if_neg hnt]
  · rw [Convert_ok (show lookup "km" = some ⟨1000, "length", "Kilometer", 0⟩ from rfl)
        (show lookup "m" = some ⟨1, "length", "Meter", 0⟩ from rfl) rfl]
    rw [if_neg (by decide)]
    rw [round12_eq_self (n := 10 ^ 15) (by norm_num)]
    norm_num
  · rw [Convert_ok (show lookup "g" = some ⟨1, "mass", "Gram", 0⟩ from rfl)
        (show lookup "kg" = some ⟨1000, "mass", "Kilogram", 0⟩ from rfl) rfl]
    rw [if_neg (by decide)]
    rw [round12_eq_self (n := 10 ^ 12) (by norm_num)]
    norm_num

/-- Witness for C5: the ratio formula instantiated at km to m, v = 2. -/
theorem C5_witness :
    Convert 2 "km" "m" = (round12 (2 * 1000 / 1), none) :=
  C5_ratio_formula.1 "km" "m" ⟨1000, "length", "Kilometer", 0⟩
    ⟨1, "length", "Meter", 0⟩ 2 rfl rfl rfl (by decide)

/-- C2 counterexample: the round trip is not within 1e-9 relative
tolerance for every value and same-dimension pair; 0.3 Hz converted to
THz rounds to 0, and converting 0 back stays 0, a relative error of 1. -/
theorem C2_counterexample :
    Convert (3/10) "Hz" "THz" = (0, none) ∧
    Convert 0 "THz" "Hz" = (0, none) ∧
    ¬ |(Convert (Convert (3/10) "Hz" "THz").1 "THz" "Hz").1 - 3/10| ≤
        1e-9 * |3/10| := by
  have h1 : Convert (3/10) "Hz" "THz" = (0, none) := by
    rw [Convert_ok (show lookup "Hz" = some ⟨1, "frequency", "Hertz", 0⟩ from rfl)
        (show lookup "THz" = some ⟨1e12, "frequency", "Terahertz", 0⟩ from rfl) rfl]
    rw [if_neg (by decide)]
    rw [round12_eq_of_nonneg (n := 0) (by norm_num) (by norm_num) (by norm_num)]
    norm_num
  have h2 : Convert 0 "THz" "Hz" = (0, none) := by
    rw [Convert_ok (show lookup "THz" = some ⟨1e12, "frequency", "Terahertz", 0⟩ from rfl)
        (show lookup "Hz" = some ⟨1, "frequency", "Hertz", 0⟩ from rfl) rfl]
    rw [if_neg (by decide)]
    rw [round12_eq_self (n := 0) (by norm_num)]
    norm_num
  refine ⟨h1, h2, ?_⟩
  simp only [h1]
  simp only [h2]
  rw [zero_sub, abs_neg, abs_of_nonneg (show (0:ℚ) ≤ 3/10 by norm_num)]
  norm_num

/-- C2 (amended): for every registered same-dimension pair A, B and every
value v, the round trip differs from v by at most
(1 + factor B / factor A) / (2 * 10^12) in absolute value: the two
12-digit roundings, the second amplified by the back-conversion ratio. -/
theorem C2_roundtrip_bound (A B : String) (uA uB : Unit) (v : ℚ)
    (hA : lookup A = some uA) (hB : lookup B = some uB)
    (hd : uA.Dimension = uB.Dimension) :
    |(Convert (Convert v A B).1 B A).1 - v| ≤
      (1 + uB.Factor / uA.Factor) * (1 / (2 * 10 ^ 12)) := by
  have hfA := factor_pos hA
  have hfB := factor_pos hB
  have hk : 0 < uB.Factor / uA.Factor := div_pos hfB hfA
  have h1 := Convert_ok (v := v) hA hB hd
  have h2 := Convert_ok (v := (Convert v A B).1) hB hA hd.symm
  rw [h2]
  set e1 := (if uA.Dimension = "temperature" then
      ((v * uA.Factor + uA.Offset) - uB.Offset) / uB.Factor
    else v * uA.Factor / uB.Factor) with he1
  set e2 := (if uB.Dimension = "temperature" then
      (((Convert v A B).1 * uB.Factor + uB.Offset) - uA.Offset) / uA.Factor
    else (Convert v A B).1 * uB.Factor / uA.Factor) with he2
  have hr1 : (Convert v A B).1 = round12 e1 := by rw [h1]
  have hd1 : |(Convert v A B).1 - e1| ≤ 1 / (2 * 10 ^ 12) := by
    rw [hr1]
    exact round12_sub_abs_le e1
  have key : e2 = v + ((Convert v A B).1 - e1) * (uB.Factor / uA.Factor) := by
    rw [he1, he2]
    by_cases htemp : uA.Dimension = "temperature"
    · rw [if_pos htemp, if_pos (hd.symm.trans htemp)]
      exact roundtrip_affine _ _ _ _ _ _ (ne_of_gt hfA) (ne_of_gt hfB)
    · rw [if_neg htemp, if_neg (fun hh => htemp (hd.trans hh))]
      exact roundtrip_ratio _ _ _ _ (ne_of_gt hfA) (ne_of_gt hfB)
  have habs : |e2 - v| ≤ 1 / (2 * 10 ^ 12) * (uB.Factor / uA.Factor) := by
    rw [key, add_sub_cancel_left, abs_mul, abs_of_pos hk]
    exact mul_le_mul_of_nonneg_right hd1 (le_of_lt hk)
  have hout : |round12 e2 - e2| ≤ 1 / (2 * 10 ^ 12) := round12_sub_abs_le e2
  calc |(round12 e2, (none : Option ConvError)).1 - v|
      = |round12 e2 - v| := rfl
    _ ≤ |round12 e2 - e2| + |e2 - v| := abs_sub_le _ _ _
    _ ≤ 1 / (2 * 10 ^ 12) + 1 / (2 * 10 ^ 12) * (uB.Factor / uA.Factor) :=
        add_le_add hout habs
    _ = (1 + uB.Factor / uA.Factor) * (1 / (2 * 10 ^ 12)) := by ring

/-- Witness for C2 at the identity pair on meters and v = 1/3. -/
theorem C2_witness :
    |(Convert (Convert (1/3) "m" "m").1 "m" "m").1 - 1/3| ≤
      (1 + (⟨1, "length", "Meter", 0⟩ : Unit).Factor /
        (⟨1, "length", "Meter", 0⟩ : Unit).Factor) * (1 / (2 * 10 ^ 12)) :=
  C2_roundtrip_bound "m" "m" ⟨1, "length", "Meter", 0⟩
    ⟨1, "length", "Meter", 0⟩ (1/3) rfl rfl rfl

/-- C6: FormatResult renders exactly as the spec describes (scientific
with 6 fractional digits outside [0.001, 1000000], otherwise fixed with
magnitude-dependent decimal places, then a space and the unit), and the
three quoted examples hold. -/
theorem C6_formatting :
    (∀ (r : ℚ) (u : String), FormatResult r u = FormatResultSpec r u) ∧
    FormatResult 1500000 "m" = "1.500000e+06 m" ∧
    FormatResult (85/2) "kg" = "42.50 kg" ∧
    FormatResult (1/2000) "s" = "5.000000e-04 s" := by
  refine ⟨fun r u => rfl, ?_, ?_, ?_⟩
  · have hs : formatSci 1500000 = "1.500000e+06" := by
      unfold formatSci
      rw [if_neg (by norm_num)]
      rw [show |(1500000:ℚ)| = 1500000 by norm_num]
      rw [ilog_eq (e := 6) (by norm_num) (by norm_num) (by norm_num)]
      rw [show (1500000:ℚ) / (10:ℚ) ^ (6:ℤ) * 10 ^ 6 = ((1500000 : ℤ) : ℚ) by norm_num,
        rhe_intCast]
      rfl
    unfold FormatResult
    rw [if_pos (Or.inr (by norm_num)), hs]
    rfl
  · have habs : |(85/2:ℚ)| = 85/2 := abs_of_nonneg (by norm_num)
    have hf : formatFixed (85/2) 2 = "42.50" := by
      unfold formatFixed
      rw [if_neg (by norm_num), habs]
      rw [show (85/2:ℚ) * 10 ^ 2 = ((4250 : ℤ) : ℚ) by norm_num, rhe_intCast]
      rfl
    unfold FormatResult
    rw [habs]
    rw [if_neg (by norm_num), if_neg (by norm_num), if_neg (by norm_num),
      if_pos (by norm_num), hf]
    rfl
  · have hs : formatSci (1/2000) = "5.000000e-04" := by
      unfold formatSci
      rw [if_neg (by norm_num)]
      rw [show |(1/2000:ℚ)| = 1/2000 by norm_num]
      rw [ilog_eq (e := -4) (by norm_num) (by norm_num) (by norm_num)]
      rw [show (1/2000:ℚ) / (10:ℚ) ^ (-4:ℤ) * 10 ^ 6 = ((5000000 : ℤ) : ℚ) by norm_num,
        rhe_intCast]
      rw [if_neg (show ¬ (1/2000:ℚ) < 0 by norm_num)]
      rfl
    unfold FormatResult
    rw [show |(1/2000:ℚ)| = 1/2000 by norm_num]
    rw [if_pos (Or.inl (by norm_num)), hs]
    rfl

/-- C7 counterexample: the success body of POST /convert is written with
fmt.Fprintf "%.3f %s", not with FormatResult; at value 10 from kg to g
the body is "10000.000 g" while FormatResult would render "10000 g". -/
theorem C7_counterexample :
    convertHandler "POST" "10" "kg" "g" = ⟨200, "10000.000 g"⟩ ∧
    FormatResult (Convert 10 "kg" "g").1 "g" = "10000 g" ∧
    ("10000.000 g" : String) ≠ "10000 g" := by
  have hc : Convert 10 "kg" "g" = (10000, none) := by
    rw [Convert_ok (show lookup "kg" = some ⟨1000, "mass", "Kilogram", 0⟩ from rfl)
        (show lookup "g" = some ⟨1, "mass", "Gram", 0⟩ from rfl) rfl]
    rw [if_neg (by decide)]
    rw [round12_eq_self (n := 10 ^ 16) (by norm_num)]
    norm_num
  refine ⟨?_, ?_, by decide⟩
  · have hp : parseDecimal "10" = some (1 * ((10:ℕ) : ℚ)) := rfl
    have hp2 : parseDecimal "10" = some 10 := by rw [hp]; norm_num
    have hf : formatFixed 10000 3 = "10000.000" := by
      unfold formatFixed
      rw [if_neg (by norm_num)]
      rw [show |(10000:ℚ)| * 10 ^ 3 = ((10000000 : ℤ) : ℚ) by norm_num, rhe_intCast]
      rfl
    unfold convertHandler
    rw [if_neg (by decide), if_neg (by decide)]
    simp only [hp2, hc, hf]
    rfl
  · have hf0 : formatFixed 10000 0 = "10000" := by
      unfold formatFixed
      rw [if_neg (by norm_num)]
      rw [show |(10000:ℚ)| * 10 ^ 0 = ((10000 : ℤ) : ℚ) by norm_num, rhe_intCast]
      rfl
    simp only [hc]
    unfold FormatResult
    rw [show |(10000:ℚ)| = 10000 by norm_num]
    rw [if_neg (by norm_num), if_pos (by norm_num), hf0]
    rfl

/-- C7 (amended): for every POST /convert request whose value parses and
whose conversion succeeds, the response is status 200 with body the
converted value rendered by fmt "%.3f" (exactly 3 fractional digits),
then a space and the target unit symbol. -/
theorem C7_success_body (vs f t : String) (v r : ℚ)
    (hvs : parseDecimal vs = some v) (hf : f ≠ "") (ht : t ≠ "")
    (hc : Convert v f t = (r, none)) :
    convertHandler "POST" vs f t = ⟨200, formatFixed r 3 ++ " " ++ t⟩ := by
  have hvs0 : vs ≠ "" := by
    intro hempty
    rw [hempty, show parseDecimal "" = none from rfl] at hvs
    exact Option.noConfusion hvs
  unfold convertHandler
  rw [if_neg (by decide)]
  rw [if_neg (by simp [hvs0, hf, ht])]
  simp only [hvs, hc]

/-- Witness for C7 at a concrete successful request. -/
theorem C7_witness :
    convertHandler "POST" "2" "m" "cm" = ⟨200, formatFixed 200 3 ++ " " ++ "cm"⟩ :=
  C7_success_body "2" "m" "cm" 2 200
    ((show parseDecimal "2" = some (1 * ((2:ℕ) : ℚ)) from rfl).trans (by norm_num))
    (by decide) (by decide)
    (by
      rw [Convert_ok (show lookup "m" = some ⟨1, "length", "Meter", 0⟩ from rfl)
          (show lookup "cm" = some ⟨0.01, "length", "Centimeter", 0⟩ from rfl) rfl]
      rw [if_neg (by decide)]
      rw [round12_eq_self (n := 2 * 10 ^ 14) (by norm_num)]
      norm_num)

/-- C8: POST /convert with value 10, from kg, to g answers 200 with body
exactly "10000.000 g". -/
theorem C8_concrete_request :
    convertHandler "POST" "10" "kg" "g" = ⟨200, "10000.000 g"⟩ := by
  have hp : parseDecimal "10" = some (1 * ((10:ℕ) : ℚ)) := rfl
  have hp2 : parseDecimal "10" = some 10 := by rw [hp]; norm_num
  have hc : Convert 10 "kg" "g" = (10000, none) := by
    rw [Convert_ok (show lookup "kg" = some ⟨1000, "mass", "Kilogram", 0⟩ from rfl)
        (show lookup "g" = some ⟨1, "mass", "Gram", 0⟩ from rfl) rfl]
    rw [if_neg (by decide)]
    rw [round12_eq_self (n := 10 ^ 16) (by norm_num)]
    norm_num
  have hf : formatFixed 10000 3 = "10000.000" := by
    unfold formatFixed
    rw [if_neg (by norm_num)]
    rw [show |(10000:ℚ)| * 10 ^ 3 = ((10000000 : ℤ) : ℚ) by norm_num, rhe_intCast]
    rfl
  unfold convertHandler
  rw [if_neg (by decide), if_neg (by decide)]
  simp only [hp2, hc, hf]
  rfl

end goverter
